import Mathlib

/-!
Verification of the scenario-impact calculator of `src/streamlit_app.py`
(the CAIP food-security dashboard).

The app's only computational logic lives in the output column of the
"Scenario Simulation" tab: a hardcoded coefficient is multiplied by a
user-chosen shock percentage, the product is displayed rounded to two
decimal places, and a nested sign-branching on the coefficient and the
shock selects one of six narrative caption strings.

Numeric semantics: finite IEEE-754 doubles are modelled by their exact
rational value together with a sign bit that distinguishes -0.0 from
+0.0 (the one pair of distinct finite representations that IEEE
comparison treats as equal).  IEEE `<`, `>` and `==` on finite doubles
order by represented value, which the model mirrors by comparing the
rational values.  Multiplication is modelled exactly over the rationals;
every concrete product evaluated below (multiples of 0.5 times the
stored coefficient) stays far from the underflow/overflow range, and no
claim depends on a rounding tie.
-/

namespace Caip

/-- A finite IEEE-754 double: its exact rational value `val`, plus a
flag `negZeroBit` that is meaningful only at value 0 and records the
sign bit of a floating zero (`true` for -0.0).  IEEE comparisons on
finite doubles compare the represented values and treat -0.0 and +0.0
as equal, so all comparisons below go through `val`. -/
structure FiniteDouble where
  val : ℚ
  negZeroBit : Bool := false
deriving DecidableEq

/-- Line 11 of `streamlit_app.py`: the hardcoded regression slope.
`SHOCK_COEFFICIENT = -0.0987`. -/
def SHOCK_COEFFICIENT : FiniteDouble := { val := -987/10000 }

/-- Line 12 of `streamlit_app.py`: `RMSE_VALUE = 0.69`. -/
def RMSE_VALUE : FiniteDouble := { val := 69/100 }

/-- Line 68 of `streamlit_app.py`:
`predicted_deviation = SHOCK_COEFFICIENT * simulated_shock`.
A single multiplication, modelled exactly; nothing else touches the
value before it is handed to the display formatter. -/
def predicted_deviation (coefficient simulated_shock : FiniteDouble) : ℚ :=
  coefficient.val * simulated_shock.val

/-- Round a rational to two decimal places: the quantity shown by the
`st.metric` value format `+.2f` on line 73.  Presentation only. -/
def round2 (x : ℚ) : ℚ := (round (100 * x) : ℤ) / 100

/-- The sign classification of the scenario outcome.  The code has no
explicit enum; the label is realised by which `st.success` /
`st.error` / `st.warning` call runs (success lines announce a higher /
increased utilization, error lines a lower / decreased one, warning
lines no deviation). -/
inductive Sign
  | Positive
  | Negative
  | Zero
deriving DecidableEq

/-- Sign of a rational, as a `Sign` label. -/
def signOf (x : ℚ) : Sign :=
  if x < 0 then Sign.Negative else if 0 < x then Sign.Positive else Sign.Zero

/-- Line 81: narrative for a negative coefficient and a negative shock. -/
def resilientResponseMessage : String :=
  "The model suggests a resilient response: a negative supply shock is predicted to lead to a **higher** reported utilization relative to the baseline. This implies that strong government counter-measures (like stock release) or market adaptations successfully **overshot** the negative shock in the historical data."

/-- Line 84: narrative for a negative coefficient and a positive shock. -/
def marketSaturationMessage : String :=
  "The model predicts a **lower** utilization relative to the baseline for a positive shock. This is often interpreted as market saturation or storage limits preventing the full utilization of the surplus in that year."

/-- Lines 87 and 97: the zero-shock narrative.  The two source sites
hold the identical text. -/
def noDeviationMessage : String :=
  "No predicted deviation from the baseline."

/-- Line 91: narrative for a non-negative coefficient and a positive shock. -/
def expectedIncreaseMessage : String :=
  "The model predicts an increase in utilization, which is the expected result of a supply surplus."

/-- Line 94: narrative for a non-negative coefficient and a negative shock. -/
def expectedDecreaseMessage : String :=
  "The model predicts a decrease in utilization, which is the expected result of a supply loss."

/-- Lines 79-98 of `streamlit_app.py`: the nested interpretation
branching.  Outer `if SHOCK_COEFFICIENT < 0`, inner strict comparisons
of `simulated_shock` against 0; the fall-through arms are the zero
cases.  Returns the sign label realised by the chosen status call
together with the `interpretation` string assigned in that arm. -/
def interpretBranch (coefficient simulated_shock : FiniteDouble) : Sign × String :=
  if coefficient.val < 0 then
    if simulated_shock.val < 0 then
      (Sign.Positive, resilientResponseMessage)
    else if simulated_shock.val > 0 then
      (Sign.Negative, marketSaturationMessage)
    else
      (Sign.Zero, noDeviationMessage)
  else
    if simulated_shock.val > 0 then
      (Sign.Positive, expectedIncreaseMessage)
    else if simulated_shock.val < 0 then
      (Sign.Negative, expectedDecreaseMessage)
    else
      (Sign.Zero, noDeviationMessage)

/-- The scenario outcome: the specification's
`compute_impact(coefficient, shock_pct) -> (deviation, label, message)`
contract, assembled from the embedded pieces of the output column. -/
structure Impact where
  deviation : ℚ
  label : Sign
  message : String
deriving DecidableEq

/-- The impact calculation of the output column (lines 66-100): the
deviation from line 68 and the label and caption chosen by the
branching of lines 79-98. -/
def compute_impact (coefficient simulated_shock : FiniteDouble) : Impact :=
  { deviation := predicted_deviation coefficient simulated_shock
    label := (interpretBranch coefficient simulated_shock).1
    message := (interpretBranch coefficient simulated_shock).2 }

/-- Modelled from the spec: the 2x3 message lookup it describes, keyed
by whether the coefficient is negative and by the sign derived from the
shock.  This is the refinement target for the branching above, written
from the spec's words, to be compared with `interpretBranch`. -/
def messageTable : Bool → Sign → String
  | true, Sign.Negative => resilientResponseMessage
  | true, Sign.Positive => marketSaturationMessage
  | true, Sign.Zero => noDeviationMessage
  | false, Sign.Positive => expectedIncreaseMessage
  | false, Sign.Negative => expectedDecreaseMessage
  | false, Sign.Zero => noDeviationMessage

/-- The six table-cell strings of the branching, one per arm of
`interpretBranch` in source order.  The two zero arms carry the same
text, so the list has six entries and five distinct strings. -/
def narrativeStrings : List String :=
  [resilientResponseMessage, marketSaturationMessage, noDeviationMessage,
   expectedIncreaseMessage, expectedDecreaseMessage, noDeviationMessage]

/-- One row of the loaded CSV, per the columns the app reads
(lines 18 and 37-39): indexed by year with three numeric series. -/
structure ObservationRow where
  year : ℤ
  Kcal_Supply_Target : ℚ
  Kcal_Baseline_Forecast : ℚ
  Kcal_Total_Forecast : ℚ
deriving DecidableEq

/-- Everything the output column of the Scenario Simulation tab
renders (lines 66-100): the raw deviation, the metric value after the
2-decimal display rounding of line 73, and the label and caption from
the branching.  The loaded dataframe is passed in because it is in
scope in the script, but the column's code never mentions it. -/
structure ScenarioOutput where
  deviation : ℚ
  metricValue : ℚ
  label : Sign
  message : String
deriving DecidableEq

/-- The output column of the Scenario Simulation tab as a function of
the whole in-scope state: the loaded dataframe, the coefficient and the
slider value.  Faithful to lines 66-100, where only the coefficient and
the slider value occur. -/
def renderScenarioColumn (df_final : List ObservationRow)
    (coefficient simulated_shock : FiniteDouble) : ScenarioOutput :=
  { deviation := predicted_deviation coefficient simulated_shock
    metricValue := round2 (predicted_deviation coefficient simulated_shock)
    label := (interpretBranch coefficient simulated_shock).1
    message := (interpretBranch coefficient simulated_shock).2 }

/-- Line 15: the name of the input CSV. -/
def output_file_name : String :=
  "processed_national_food_security_data_updated.csv"

/-- Line 20: the message passed to `st.error` when the file is absent
(the f-string expanded at the constant file name). -/
def missingFileMessage : String :=
  "Error: The processed data file (\x27" ++ output_file_name ++
    "\x27) was not found. Please ensure it is in the deployment folder."

/-- The state of the input CSV at startup: absent, present but not
parseable by `pd.read_csv` (which then raises), or well-formed. -/
inductive CsvFile
  | missing
  | malformed (exn : String)
  | wellFormed (rows : List ObservationRow)
deriving DecidableEq

/-- What the startup of the script ends in. -/
inductive StartupResult
  | running (df_final : List ObservationRow)
  | stoppedWithError (msg : String)
  | uncaughtException (exn : String)
deriving DecidableEq

/-- Lines 16-21 of `streamlit_app.py`: `pd.read_csv` inside
`try ... except FileNotFoundError`.  A missing file is caught and the
script emits `st.error(...)` then `st.stop()`; any other read failure
propagates as an uncaught exception, which ends the script run (the
hosting framework surfaces it to the user); a well-formed file yields
the dataframe and the dashboard renders. -/
def loadStartup : CsvFile → StartupResult
  | CsvFile.missing => StartupResult.stoppedWithError missingFileMessage
  | CsvFile.malformed exn => StartupResult.uncaughtException exn
  | CsvFile.wellFormed rows => StartupResult.running rows

/-- The user-visible error messages a startup outcome surfaces: the
`st.error` text on the stop path, the rendered exception on the
uncaught path, nothing on the serving path. -/
def userVisibleErrors : StartupResult → List String
  | StartupResult.running _ => []
  | StartupResult.stoppedWithError msg => [msg]
  | StartupResult.uncaughtException exn => [exn]

/-- Whether the startup outcome goes on to serve the dashboard. -/
def serves : StartupResult → Bool
  | StartupResult.running _ => true
  | StartupResult.stoppedWithError _ => false
  | StartupResult.uncaughtException _ => false

/-- The parameters of a `st.slider` call. -/
structure SliderSpec where
  min_value : ℚ
  max_value : ℚ
  value : ℚ
  step : ℚ
  format : String
deriving DecidableEq

/-- Lines 56-63 of `streamlit_app.py`: the shock slider. -/
def shockSlider : SliderSpec :=
  { min_value := -20
    max_value := 20
    value := -10
    step := 1/2
    format := "%.1f%%" }

/-- The values the shock slider can yield: `min_value + k * step` for
the steps that fit in the domain.  `(20 - (-20)) / 0.5 = 80`, so the
admissible step counts are `k = 0, ..., 80` and the maximum is
reachable exactly. -/
def isShockSliderValue (x : ℚ) : Prop :=
  ∃ k : ℕ, k ≤ 80 ∧ x = shockSlider.min_value + (k : ℚ) * shockSlider.step

/-- Helper: with a shock of value 0 (either floating zero), both arms of
the outer branch fall through to the zero case. -/
theorem interpretBranch_zero_shock (c : FiniteDouble) (b : Bool) :
    interpretBranch c { val := 0, negZeroBit := b } = (Sign.Zero, noDeviationMessage) := by
  unfold interpretBranch
  by_cases hc : c.val < 0 <;> simp [hc]

/-- Helper: each narrative string is non-empty. -/
theorem narrativeStrings_nonempty : ∀ m ∈ narrativeStrings, m ≠ "" := by
  decide

/-- C1: for every finite coefficient and every shock in [-20, 20], the
computed deviation is exactly the product of coefficient and shock, with
no rounding inside the calculation; the 2-decimal rounding appears only
in the displayed metric value. -/
theorem deviation_is_exact_unrounded_product (df : List ObservationRow)
    (c s : FiniteDouble) (h1 : -20 ≤ s.val) (h2 : s.val ≤ 20) :
    (compute_impact c s).deviation = c.val * s.val ∧
    (renderScenarioColumn df c s).deviation = c.val * s.val ∧
    (renderScenarioColumn df c s).metricValue = round2 ((compute_impact c s).deviation) :=
  ⟨rfl, rfl, rfl⟩

/-- Witness for C1 at the stored coefficient and the default shock -10. -/
theorem deviation_is_exact_unrounded_product_witness :
    (compute_impact SHOCK_COEFFICIENT { val := -10 }).deviation =
      SHOCK_COEFFICIENT.val * ({ val := -10 } : FiniteDouble).val ∧
    (renderScenarioColumn [] SHOCK_COEFFICIENT { val := -10 }).deviation =
      SHOCK_COEFFICIENT.val * ({ val := -10 } : FiniteDouble).val ∧
    (renderScenarioColumn [] SHOCK_COEFFICIENT { val := -10 }).metricValue =
      round2 ((compute_impact SHOCK_COEFFICIENT { val := -10 }).deviation) :=
  deviation_is_exact_unrounded_product [] SHOCK_COEFFICIENT { val := -10 }
    (by norm_num) (by norm_num)

/-- C2 counterexample: with coefficient 0.0 (a finite float, admitted by
the claim) and shock 10.0, the branching selects the Positive arm even
though the deviation 0.0 * 10.0 = 0.0 has sign Zero, so the classified
sign does not match sign(c) * sign(s). -/
theorem sign_classification_counterexample :
    (compute_impact { val := 0 } { val := 10 }).label = Sign.Positive ∧
    signOf ((compute_impact { val := 0 } { val := 10 }).deviation) = Sign.Zero ∧
    Sign.Positive ≠ Sign.Zero := by
  refine ⟨?_, ?_, by decide⟩ <;>
    simp [compute_impact, interpretBranch, predicted_deviation, signOf]

/-- C2 amended: for every finite NONZERO coefficient and every shock in
[-20, 20], the classified sign equals the sign of the deviation c * s,
and the Zero case holds exactly when the shock is 0 (equivalently, when
the deviation is 0).  The zero case is decided by the shock falling
through both strict comparisons, not by a comparison of the deviation,
so for coefficient 0 the classification follows the sign of the shock
instead of the (zero) deviation. -/
theorem sign_classification_matches_deviation_sign (c s : FiniteDouble)
    (hc : c.val ≠ 0) (h1 : -20 ≤ s.val) (h2 : s.val ≤ 20) :
    (compute_impact c s).label = signOf (c.val * s.val) ∧
    ((compute_impact c s).label = Sign.Zero ↔ s.val = 0) ∧
    ((compute_impact c s).label = Sign.Zero ↔ (compute_impact c s).deviation = 0) := by
  unfold compute_impact interpretBranch predicted_deviation signOf
  rcases hc.lt_or_lt with hc0 | hc0
  · rcases lt_trichotomy s.val 0 with hs | hs | hs
    · have hp : 0 < c.val * s.val := mul_pos_of_neg_of_neg hc0 hs
      simp [hc0, hs, asymm hs, asymm hp, hp, hs.ne, hp.ne']
    · simp [hc0, hs]
    · have hp : c.val * s.val < 0 := mul_neg_of_neg_of_pos hc0 hs
      simp [hc0, hs, asymm hs, hp, hs.ne', hp.ne]
  · rcases lt_trichotomy s.val 0 with hs | hs | hs
    · have hp : c.val * s.val < 0 := mul_neg_of_pos_of_neg hc0 hs
      simp [asymm hc0, hs, asymm hs, hp, hs.ne, hp.ne]
    · simp [asymm hc0, hs]
    · have hp : 0 < c.val * s.val := mul_pos hc0 hs
      simp [asymm hc0, hs, asymm hs, asymm hp, hp, hs.ne', hp.ne']

/-- Witness for C2 amended at the stored coefficient and shock -10. -/
theorem sign_classification_matches_deviation_sign_witness :
    (compute_impact SHOCK_COEFFICIENT { val := -10 }).label =
      signOf (SHOCK_COEFFICIENT.val * ({ val := -10 } : FiniteDouble).val) ∧
    ((compute_impact SHOCK_COEFFICIENT { val := -10 }).label = Sign.Zero ↔
      ({ val := -10 } : FiniteDouble).val = 0) ∧
    ((compute_impact SHOCK_COEFFICIENT { val := -10 }).label = Sign.Zero ↔
      (compute_impact SHOCK_COEFFICIENT { val := -10 }).deviation = 0) :=
  sign_classification_matches_deviation_sign SHOCK_COEFFICIENT { val := -10 }
    (by norm_num [SHOCK_COEFFICIENT]) (by norm_num) (by norm_num)

/-- C3: the message selection is the total 2x3 lookup keyed by the
coefficient being negative and by the sign derived from the shock;
every combination yields a non-empty string from the six table cells
(the two zero cells hold the same text). -/
theorem message_lookup_total (c s : FiniteDouble) :
    (compute_impact c s).message = messageTable (decide (c.val < 0)) (signOf s.val) ∧
    (compute_impact c s).message ∈ narrativeStrings ∧
    (compute_impact c s).message ≠ "" := by
  have htab : (compute_impact c s).message =
      messageTable (decide (c.val < 0)) (signOf s.val) := by
    unfold compute_impact interpretBranch signOf
    by_cases hc : c.val < 0 <;>
      rcases lt_trichotomy s.val 0 with hs | hs | hs <;>
        first
          | simp [hc, hs, asymm hs, messageTable]
          | simp [hc, hs, messageTable]
  have hmem : (compute_impact c s).message ∈ narrativeStrings := by
    rw [htab]
    rcases (decide (c.val < 0)) with _ | _ <;> rcases (signOf s.val) with _ | _ | _ <;>
      simp [messageTable, narrativeStrings]
  exact ⟨htab, hmem, narrativeStrings_nonempty _ hmem⟩

/-- C4: for every finite coefficient, a shock of 0.0 yields the Zero
classification and the no-deviation message. -/
theorem zero_shock_yields_zero_label (c : FiniteDouble) :
    (compute_impact c { val := 0 }).label = Sign.Zero ∧
    (compute_impact c { val := 0 }).message = noDeviationMessage := by
  unfold compute_impact
  rw [interpretBranch_zero_shock]
  exact ⟨rfl, rfl⟩

/-- C5: with the stored coefficient -0.0987, a shock of -10.0 gives
deviation +0.987, classification Positive and the resilient-response
narrative; a shock of +10.0 gives deviation -0.987, classification
Negative and the market-saturation narrative. -/
theorem stored_coefficient_scenarios :
    (compute_impact SHOCK_COEFFICIENT { val := -10 }).deviation = 987/1000 ∧
    (compute_impact SHOCK_COEFFICIENT { val := -10 }).label = Sign.Positive ∧
    (compute_impact SHOCK_COEFFICIENT { val := -10 }).message = resilientResponseMessage ∧
    (compute_impact SHOCK_COEFFICIENT { val := 10 }).deviation = -(987/1000) ∧
    (compute_impact SHOCK_COEFFICIENT { val := 10 }).label = Sign.Negative ∧
    (compute_impact SHOCK_COEFFICIENT { val := 10 }).message = marketSaturationMessage := by
  refine ⟨?_, ?_, ?_, ?_, ?_, ?_⟩ <;>
    norm_num [compute_impact, interpretBranch, predicted_deviation, SHOCK_COEFFICIENT]

/-- C6: when the input CSV is missing or malformed, startup does not
serve the dashboard and surfaces exactly one user-visible error
message; a well-formed file is the only path that serves, and it
surfaces no error. -/
theorem startup_failure_is_fatal_single_error (f : CsvFile)
    (h : ∀ rows, f ≠ CsvFile.wellFormed rows) :
    serves (loadStartup f) = false ∧
    (userVisibleErrors (loadStartup f)).length = 1 ∧
    (∀ rows, loadStartup f ≠ StartupResult.running rows) ∧
    (∀ rows, userVisibleErrors (loadStartup (CsvFile.wellFormed rows)) = []) := by
  rcases f with _ | exn | rows
  · exact ⟨rfl, rfl, fun _ h => StartupResult.noConfusion h, fun _ => rfl⟩
  · exact ⟨rfl, rfl, fun _ h => StartupResult.noConfusion h, fun _ => rfl⟩
  · exact absurd rfl (h rows)

/-- Witness for C6 at a missing input file. -/
theorem startup_failure_is_fatal_single_error_witness :
    serves (loadStartup CsvFile.missing) = false ∧
    (userVisibleErrors (loadStartup CsvFile.missing)).length = 1 ∧
    (∀ rows, loadStartup CsvFile.missing ≠ StartupResult.running rows) ∧
    (∀ rows, userVisibleErrors (loadStartup (CsvFile.wellFormed rows)) = []) :=
  startup_failure_is_fatal_single_error CsvFile.missing
    (fun _ h => CsvFile.noConfusion h)

/-- C7: the rendered scenario output is a pure deterministic function of
the coefficient and the shock: the loaded dataframe has no influence on
it, and the deviation is exactly the pure product function applied to
the pair. -/
theorem scenario_output_pure_in_coefficient_and_shock
    (df df2 : List ObservationRow) (c s : FiniteDouble) :
    renderScenarioColumn df c s = renderScenarioColumn df2 c s ∧
    (renderScenarioColumn df c s).deviation = predicted_deviation c s :=
  ⟨rfl, rfl⟩

/-- C8: the slider has domain [-20, 20], default -10, step 0.5, and is
displayed with one decimal place and a percent suffix; every value the
slider can yield lies in [-20, 20], and the default is among them. -/
theorem slider_domain_and_defaults (x : ℚ) (h : isShockSliderValue x) :
    shockSlider.min_value = -20 ∧ shockSlider.max_value = 20 ∧
    shockSlider.value = -10 ∧ shockSlider.step = 1/2 ∧
    shockSlider.format = "%.1f%%" ∧
    isShockSliderValue shockSlider.value ∧
    -20 ≤ x ∧ x ≤ 20 := by
  obtain ⟨k, hk, hx⟩ := h
  simp only [shockSlider] at hx
  have hk80 : (k : ℚ) ≤ 80 := by exact_mod_cast hk
  have hk0 : (0 : ℚ) ≤ (k : ℚ) := Nat.cast_nonneg k
  refine ⟨rfl, rfl, rfl, rfl, rfl, ⟨20, by norm_num, by norm_num [shockSlider]⟩, ?_, ?_⟩
  · rw [hx]; nlinarith
  · rw [hx]; nlinarith

/-- Witness for C8 at the default slider value -10. -/
theorem slider_domain_and_defaults_witness :
    shockSlider.min_value = -20 ∧ shockSlider.max_value = 20 ∧
    shockSlider.value = -10 ∧ shockSlider.step = 1/2 ∧
    shockSlider.format = "%.1f%%" ∧
    isShockSliderValue shockSlider.value ∧
    -20 ≤ (-10 : ℚ) ∧ (-10 : ℚ) ≤ 20 :=
  slider_domain_and_defaults (-10) ⟨20, by norm_num, by norm_num [shockSlider]⟩

/-- C9: a shock of -0.0 is classified exactly like +0.0: the strict
comparisons on the represented value (under which -0.0 and +0.0 are
equal) both fail, the branching falls through to the zero case, and the
whole impact coincides with the +0.0 one, yielding the no-deviation
message for every finite coefficient. -/
theorem negative_zero_shock_like_positive_zero (c : FiniteDouble) :
    compute_impact c { val := 0, negZeroBit := true } = compute_impact c { val := 0 } ∧
    (compute_impact c { val := 0, negZeroBit := true }).label = Sign.Zero ∧
    (compute_impact c { val := 0, negZeroBit := true }).message = noDeviationMessage := by
  refine ⟨rfl, ?_, ?_⟩ <;>
    (unfold compute_impact; rw [interpretBranch_zero_shock])

/-- C10: the narrative depends only on the signs of the coefficient and
the shock: for a fixed coefficient, two shocks with the same strict
sign (both negative, both positive, or both zero) select the identical
narrative string, and in fact the identical label. -/
theorem narrative_depends_only_on_signs (c s t : FiniteDouble)
    (h : (s.val < 0 ∧ t.val < 0) ∨ (0 < s.val ∧ 0 < t.val) ∨ (s.val = 0 ∧ t.val = 0)) :
    (compute_impact c s).message = (compute_impact c t).message ∧
    (compute_impact c s).label = (compute_impact c t).label := by
  unfold compute_impact interpretBranch
  rcases h with ⟨hs, ht⟩ | ⟨hs, ht⟩ | ⟨hs, ht⟩ <;>
    by_cases hc : c.val < 0 <;>
      first
        | simp [hc, hs, ht, asymm hs, asymm ht]
        | simp [hc, hs, ht]

/-- Witness for C10: shocks -10 and -0.5 with the stored coefficient
select the same message and label. -/
theorem narrative_depends_only_on_signs_witness :
    (compute_impact SHOCK_COEFFICIENT { val := -10 }).message =
      (compute_impact SHOCK_COEFFICIENT { val := -1/2 }).message ∧
    (compute_impact SHOCK_COEFFICIENT { val := -10 }).label =
      (compute_impact SHOCK_COEFFICIENT { val := -1/2 }).label :=
  narrative_depends_only_on_signs SHOCK_COEFFICIENT { val := -10 } { val := -1/2 }
    (Or.inl ⟨by norm_num, by norm_num⟩)

end Caip
